import Mathlib

/-!
Verification of the pygate quality-gate orchestrator.

This file shallowly embeds the data model and the operations of the
pygate source tree (src/pygate/*.py) as executable Lean definitions and
proves properties of them.  External effects (subprocess execution, the
wall clock, git, the filesystem) are passed in explicitly as oracle
parameters, so each Python function becomes a pure Lean function of its
inputs and of the responses the environment would have produced.
-/

namespace Pygate

/-! ### Data model, translated from src/pygate/models.py -/

inductive GateStatus
  | pass
  | fail
  | skipped
deriving DecidableEq, Repr

inductive RunMode
  | canary
  | full
deriving DecidableEq, Repr

inductive RunStatus
  | pass
  | fail
deriving DecidableEq, Repr

inductive Severity
  | low
  | medium
  | high
  | critical
deriving DecidableEq, Repr

inductive Confidence
  | low
  | medium
  | high
deriving DecidableEq, Repr

inductive GateName
  | lint
  | typecheck
  | test
deriving DecidableEq, Repr

/-- The `.value` string of the `GateName` str-enum. -/
def GateName.value : GateName → String
  | .lint => "lint"
  | .typecheck => "typecheck"
  | .test => "test"

/-- A JSON-ish scalar stored in a `raw` payload dict. -/
inductive RawVal
  | str (v : String)
  | int (v : Int)
  | null
deriving DecidableEq, Repr

/-- `actual` / `threshold` fields are `int | str` in the pydantic model. -/
inductive IntOrStr
  | int (v : Int)
  | str (v : String)
deriving DecidableEq, Repr

structure Finding where
  id : String
  gate : GateName
  severity : Severity
  summary : String
  files : List String := []
  rule : Option String := none
  line : Option Int := none
  column : Option Int := none
  actual : IntOrStr
  threshold : IntOrStr
  status : String := "fail"
  raw : List (String × RawVal) := []
deriving DecidableEq, Repr

structure GateResult where
  name : GateName
  status : GateStatus
  duration_ms : Int := 0
deriving DecidableEq, Repr

structure InferredHint where
  finding_id : String
  hint : String
  confidence : Confidence
deriving DecidableEq, Repr

structure FailuresPayload where
  version : String := "1.0.0"
  run_id : String
  mode : RunMode
  status : RunStatus
  timestamp : String
  repo : Option String := none
  branch : Option String := none
  changed_files : List String := []
  gates : List GateResult
  findings : List Finding
  inferred_hints : List InferredHint := []
deriving DecidableEq, Repr

structure CommandTrace where
  command : String
  cwd : String
  started_at : String
  duration_ms : Int
  exit_code : Int
  timed_out : Bool := false
  stdout : String := ""
  stderr : String := ""
deriving DecidableEq, Repr

/-- One fix action dict appended by the deterministic fix engine. -/
structure FixAction where
  rule_id : String
  strategy : String
  accepted : Bool
  command : String
  exit_code : Int
  files : List String
  rationale : String
deriving DecidableEq, Repr

structure RepairAttempt where
  attempt : Nat
  patch_lines : Int
  before_findings : Nat
  after_findings : Nat
  improved : Bool
  worsened : Bool
  status : String
  actions : List FixAction := []
deriving DecidableEq, Repr

structure RepairReport where
  status : String
  attempts : List RepairAttempt := []
deriving DecidableEq, Repr

/-- A value stored in an escalation evidence bag. -/
inductive EvVal
  | int (v : Int)
  | str (v : String)
  | attempts (v : List RepairAttempt)
  | strs (v : List String)
deriving DecidableEq, Repr

structure Escalation where
  status : String := "escalated"
  reason_code : String
  message : String
  evidence : List (String × EvVal) := []
deriving DecidableEq, Repr

/-! ### Constants, translated from src/pygate/constants.py -/

def PYGATE_DIR : String := ".pygate"

def FAILURES_FILE : String := ".pygate/failures.json"

def DEFAULT_POLICY : List (String × Int) :=
  [("max_attempts", 3), ("max_patch_lines", 150),
   ("abort_on_no_improvement", 2), ("time_cap_seconds", 1200)]

def NO_IMPROVEMENT : String := "NO_IMPROVEMENT"

def PATCH_BUDGET_EXCEEDED : String := "PATCH_BUDGET_EXCEEDED"

def UNKNOWN_BLOCKER : String := "UNKNOWN_BLOCKER"

/-! ### Python primitive helpers.

These re-implement the handful of string primitives the source relies
on over plain character lists, so that every definition in this file
reduces inside the kernel. -/

/-- Fuel-indexed most-significant-first decimal digit rendering; `fuel ≥ n`
makes it total on positive `n`. -/
def pyStrDigits : Nat → Nat → List Char
  | 0, _ => []
  | _ + 1, 0 => []
  | fuel + 1, n => pyStrDigits fuel (n / 10) ++ [Nat.digitChar (n % 10)]

/-- Decimal rendering of a natural number, modelling Python `str(n)`. -/
def pyStr (n : Nat) : String :=
  if n = 0 then "0" else String.mk (pyStrDigits n n)

/-- Decimal rendering of an integer, modelling Python `str(i)`. -/
def pyIntStr (i : Int) : String :=
  if i < 0 then "-" ++ pyStr i.natAbs else pyStr i.natAbs

/-- Split a character list on a separator character. -/
def splitSegs (sep : Char) : List Char → List (List Char)
  | [] => [[]]
  | c :: rest =>
    match splitSegs sep rest with
    | [] => [[c]]
    | s :: ss => if c = sep then [] :: s :: ss else (c :: s) :: ss

/-- Python substring containment `pat in s` on character lists. -/
def containsSub (pat : List Char) : List Char → Bool
  | [] => pat.isPrefixOf []
  | c :: rest => pat.isPrefixOf (c :: rest) || containsSub pat rest

/-- Python `s.startswith(pre)`. -/
def pyStartsWith (s pre : String) : Bool :=
  pre.data.isPrefixOf s.data

/-- Python `s.endswith(suf)`. -/
def pyEndsWith (s suf : String) : Bool :=
  suf.data.isSuffixOf s.data

/-- Python `s.strip()`. -/
def pyStrip (s : String) : String :=
  String.mk (((s.data.dropWhile Char.isWhitespace).reverse.dropWhile Char.isWhitespace).reverse)

/-- Python `int(s)` on a string of decimal digits; `none` models the
`ValueError` cases. -/
def pyParseNat (s : String) : Option Nat :=
  if s.data ≠ [] ∧ s.data.all Char.isDigit then
    some (s.data.foldl (fun n c => n * 10 + (c.toNat - 48)) 0)
  else none

/-- Python `str.splitlines` restricted to "\n" separators (the only
separator produced by the subprocess captures this model covers). -/
def pySplitlines (s : String) : List String :=
  if s = "" then []
  else
    let parts := (splitSegs (Char.ofNat 10) s.data).map (fun l => String.mk l)
    if parts.getLast? = some "" then parts.dropLast else parts

/-- First-seen de-duplication relative to a seen set (also models
iterating a Python set where the claims leave the order
unconstrained). -/
def dedupFrom (seen : List String) : List String → List String
  | [] => []
  | a :: l => if a ∈ seen then dedupFrom seen l else a :: dedupFrom (seen ++ [a]) l

/-- First-seen order-preserving de-duplication. -/
def dedupFirst (l : List String) : List String :=
  dedupFrom [] l

/-! ### Lint adapter, translated from src/pygate/gates/ruff.py -/

/-- One entry of the ruff JSON output array.  The `fix` sub-object is
collapsed to the one key the adapter reads (`applicability`); a JSON
`null` code is out of scope of this model (ruff emits it only for
syntax errors). -/
structure RuffViolation where
  code : String
  filename : String
  row : Int
  column : Int
  message : String
  fix_applicability : Option String := none
  url : Option String := none
deriving DecidableEq, Repr

/-- `Path(filename).relative_to(cwd)` with the `ValueError` fallback of
the adapter: when `filename` does not live under `cwd` it is returned
unchanged.  Modelled textually on normalized paths. -/
def relative_to_or_self (filename cwd : String) : String :=
  if (cwd.data ++ [Char.ofNat 47]).isPrefixOf filename.data then
    String.mk (filename.data.drop (cwd.length + 1))
  else filename

def _severity_for_code (code : String) : Severity :=
  match code.data with
  | [] => .medium
  | c :: _ =>
    if c.toUpper = 'E' ∨ c.toUpper = 'F' then .high
    else if c.toUpper = 'W' then .medium
    else .medium

def optRaw : Option String → RawVal
  | none => .null
  | some s => .str s

/-- The Finding built for one ruff violation; `idx` is `len(findings)`
at the moment the violation is processed. -/
def ruffFinding (cwd : String) (exitCode : Int) (v : RuffViolation) (idx : Nat) : Finding :=
  let rel := relative_to_or_self v.filename cwd
  { id := "ruff_" ++ v.code ++ "_" ++ rel ++ "_" ++ pyIntStr v.row ++ "_" ++ pyStr idx
    gate := .lint
    severity := _severity_for_code v.code
    summary := v.code ++ ": " ++ v.message
    files := [rel]
    rule := some v.code
    line := some v.row
    column := some v.column
    actual := .int exitCode
    threshold := .int 0
    raw := [("fix_applicability", optRaw v.fix_applicability), ("url", optRaw v.url)] }

/-- The accumulation loop of `parse_ruff_output`: each violation appends
one finding whose disambiguating index is the current length of the
accumulated list. -/
def parseRuffLoop (cwd : String) (exitCode : Int) : List RuffViolation → List Finding → List Finding
  | [], acc => acc
  | v :: rest, acc => parseRuffLoop cwd exitCode rest (acc ++ [ruffFinding cwd exitCode v acc.length])

/-- `parse_ruff_output(stdout, stderr, exit_code, cwd)`.  The stdout
argument is modelled post-JSON-decoding: `none` stands for stdout that
fails to decode or does not decode to a list, which the adapter maps
to zero findings. -/
def parse_ruff_output (violations : Option (List RuffViolation)) (exitCode : Int) (cwd : String) :
    List Finding :=
  match violations with
  | none => []
  | some vs => parseRuffLoop cwd exitCode vs []

/-! ### Shell quoting, translated from Python shlex.quote (used verbatim
by the fix engine and the pytest command resolver) -/

/-- Characters the `shlex` unsafe-scan accepts: ASCII word characters
plus @ % + = : , . slash and dash. -/
def shlexSafeChar (c : Char) : Bool :=
  c.isAlpha || c.isDigit || c = '_' || c = '@' || c = '%' || c = '+' || c = '=' ||
    c = ':' || c = ',' || c = '.' || c = '/' || c = '-'

/-- A single-quote character, built by code point to keep source text plain. -/
def squote : String := String.mk [Char.ofNat 39]

def shlex_quote (s : String) : String :=
  if s ≠ "" ∧ s.data.all shlexSafeChar then s
  else squote ++ (s.replace squote (squote ++ "\"" ++ squote ++ "\"" ++ squote)) ++ squote

/-! ### Gate runner, translated from src/pygate/gates/__init__.py and the
command resolvers of ruff.py / pyright.py / pytest_gate.py.

Subprocess execution is abstracted by an oracle `exec : String →
CommandTrace` giving the trace `run_command` would return for a command
string, and output parsing by `parse : GateName → CommandTrace → List
Finding` standing for `_parse_gate_output` (whose per-gate adapters
read stdout and, for pytest, a report file on disk). -/

def resolve_ruff_command (commandsConfig : List (String × String)) : String :=
  (commandsConfig.lookup "lint").getD "ruff check --output-format json --exclude .pygate ."

def resolve_pyright_command (commandsConfig : List (String × String)) : String :=
  (commandsConfig.lookup "typecheck").getD "pyright --outputjson ."

def resolve_pytest_command (commandsConfig : List (String × String)) (cwd : String) : String :=
  match commandsConfig.lookup "test" with
  | some c => c
  | none =>
    "pytest --json-report --json-report-file=" ++
      shlex_quote (cwd ++ "/.pygate/pytest-report.json") ++ " -q"

def _resolve_command (gate : GateName) (commandsConfig : List (String × String)) (cwd : String) :
    String :=
  match commandsConfig.lookup gate.value with
  | some c => c
  | none =>
    match gate with
    | .lint => resolve_ruff_command commandsConfig
    | .typecheck => resolve_pyright_command commandsConfig
    | .test => resolve_pytest_command commandsConfig cwd

/-- The synthesized fallback finding for a failing gate whose adapter
parsed no findings (`_finding_for_exit_code`). -/
def _finding_for_exit_code (gate : GateName) (trace : CommandTrace) : Finding :=
  { id := gate.value ++ "_exit_" ++ pyIntStr trace.exit_code
    gate := gate
    severity := .high
    summary := gate.value ++ " command failed with exit code " ++ pyIntStr trace.exit_code
    actual := .int trace.exit_code
    threshold := .int 0
    raw := [("command", .str trace.command),
            ("stderr_excerpt", .str (String.intercalate "\n" ((pySplitlines trace.stderr).take 30))),
            ("stdout_excerpt", .str (String.intercalate "\n" ((pySplitlines trace.stdout).take 30)))] }

/-- The gate plan of `run_deterministic_gates`: lint and typecheck always
enabled, test enabled in full mode or when forced in canary. -/
def gatePlan (mode : RunMode) (testInCanary : Bool) : List (GateName × Bool) :=
  [(.lint, true), (.typecheck, true), (.test, mode == RunMode.full || testInCanary)]

/-- The findings one enabled gate contributes: adapter output when the
command failed, with the fallback finding substituted when the adapter
parsed none; nothing when the command passed. -/
def gateContribution (parse : GateName → CommandTrace → List Finding) (g : GateName)
    (trace : CommandTrace) : List Finding :=
  if trace.exit_code ≠ 0 then
    let fs := parse g trace
    if fs = [] then [_finding_for_exit_code g trace] else fs
  else []

/-- The per-gate loop body of `run_deterministic_gates`, processing the
gate plan in order and accumulating results, findings and traces. -/
def runGatesLoop (cwd : String) (commandsConfig : List (String × String))
    (exec : String → CommandTrace) (parse : GateName → CommandTrace → List Finding) :
    List (GateName × Bool) → List GateResult × List Finding × List CommandTrace
  | [] => ([], [], [])
  | (g, enabled) :: rest =>
    if enabled then
      let trace := exec (_resolve_command g commandsConfig cwd)
      let status := if trace.exit_code ≠ 0 then GateStatus.fail else GateStatus.pass
      let (rs, fs, ts) := runGatesLoop cwd commandsConfig exec parse rest
      (⟨g, status, trace.duration_ms⟩ :: rs, gateContribution parse g trace ++ fs, trace :: ts)
    else
      let (rs, fs, ts) := runGatesLoop cwd commandsConfig exec parse rest
      (⟨g, .skipped, 0⟩ :: rs, fs, ts)

def run_deterministic_gates (mode : RunMode) (cwd : String)
    (commandsConfig : List (String × String)) (testInCanary : Bool)
    (exec : String → CommandTrace) (parse : GateName → CommandTrace → List Finding) :
    List GateResult × List Finding × List CommandTrace :=
  runGatesLoop cwd commandsConfig exec parse (gatePlan mode testInCanary)

def RunStatus.value : RunStatus → String
  | .pass => "pass"
  | .fail => "fail"

/-- The FailuresPayload built by `execute_run` (run_command.py): gate
results and findings from the gate runner, overall status `fail` exactly
when the aggregated findings list is non-empty, plus one low-confidence
hint per finding.  Run id, timestamp and git identity come from the
environment and are passed in. -/
def execute_run_model (mode : RunMode) (changedFiles : List String) (cwd : String)
    (commandsConfig : List (String × String)) (testInCanary : Bool)
    (exec : String → CommandTrace) (parse : GateName → CommandTrace → List Finding)
    (runId timestamp : String) (repo branch : Option String) : FailuresPayload :=
  let out := run_deterministic_gates mode cwd commandsConfig testInCanary exec parse
  { run_id := runId
    mode := mode
    status := if out.2.1 ≠ [] then RunStatus.fail else RunStatus.pass
    timestamp := timestamp
    repo := repo
    branch := branch
    changed_files := changedFiles
    gates := out.1
    findings := out.2.1
    inferred_hints := out.2.1.map (fun f =>
      { finding_id := f.id
        hint := "Start with the deterministic gate failure in " ++ f.gate.value ++
          ". Inspect command output in run-metadata traces."
        confidence := .low }) }

/-! ### Configuration, translated from src/pygate/config.py.

TOML contents are modelled post-parsing: a `UserConfig` is the typed
view of the keys `load_config` reads.  `none` for the pyproject input
stands for a missing file, a missing `[tool.suite]`-style section, or a
section that parses to an empty (falsy) dict. -/

structure UserConfig where
  policy : List (String × Int) := []
  commands : List (String × String) := []
  gates : List (String × Bool) := []
deriving DecidableEq, Repr

structure ResolvedConfig where
  policy : List (String × Int)
  commands : List (String × String)
  gates : List (String × Bool)
  source : String
deriving DecidableEq, Repr

def _defaults : ResolvedConfig :=
  { policy := DEFAULT_POLICY, commands := [], gates := [], source := "defaults" }

/-- `_merge_config`: the user policy dict is laid over the default policy
dict (user entries win on lookup); commands and gates are taken from the
user config (their default layers are empty dicts). -/
def _merge_config (user : UserConfig) (source : String) : ResolvedConfig :=
  { policy := user.policy ++ DEFAULT_POLICY
    commands := user.commands
    gates := user.gates
    source := source }

def load_config (cwd : String) (pygateToml : Option UserConfig)
    (pyprojectPygate : Option UserConfig) : ResolvedConfig :=
  match pygateToml with
  | some u => _merge_config u (cwd ++ "/pygate.toml")
  | none =>
    match pyprojectPygate with
    | some u => _merge_config u (cwd ++ "/pyproject.toml")
    | none => _defaults

/-! ### Deterministic fix engine, translated from src/pygate/deterministic_fix.py -/

def EXCLUDED_DIR_NAMES : List String :=
  [".pygate", ".git", ".venv", ".tox", ".nox", "__pycache__", "dist", "build", "node_modules"]

/-- The slash-delimited segments of a path. -/
def pathSegs (path : String) : List String :=
  (splitSegs (Char.ofNat 47) path.data).map (fun l => String.mk l)

/-- The `_EXCLUDED_DIRS` regex, whose alternatives are each anchored
between start-or-slash and slash-or-end: it matches a path exactly when
some slash-delimited segment equals one of the excluded names. -/
def excludedDirsMatch (path : String) : Bool :=
  (pathSegs path).any (fun seg => EXCLUDED_DIR_NAMES.contains seg)

/-- Python substring test `".." in path`. -/
def containsDotDot (path : String) : Bool :=
  containsSub [Char.ofNat 46, Char.ofNat 46] path.data

def _is_eligible (path : String) : Bool :=
  if ¬ pyEndsWith path ".py" then false
  else if excludedDirsMatch path then false
  else ¬ (pyStartsWith path "/" || containsDotDot path)

def _MAX_FILES : Nat := 20

/-- The seen-set collection loop shared by both passes of
`_collect_scoped_files`: a candidate is appended when it is not yet seen
and eligible. -/
def collectLoop : List String → List String × List String → List String × List String
  | [], acc => acc
  | f :: rest, (seen, files) =>
    if f ∉ seen ∧ _is_eligible f then collectLoop rest (seen ++ [f], files ++ [f])
    else collectLoop rest (seen, files)

def _collect_scoped_files (failures : FailuresPayload) : List String :=
  let acc1 := collectLoop failures.changed_files ([], [])
  let acc2 := collectLoop (failures.findings.flatMap (fun f => f.files)) acc1
  acc2.2.take _MAX_FILES

/-- `run_deterministic_prefix` of deterministic_fix.py: no actions unless
a lint finding is present and the scoped file list is non-empty;
otherwise exactly the safe-fix action followed by the reformat action.
The exit codes of the two ruff invocations come from the environment. -/
def run_deterministic_fix_actions (failures : FailuresPayload) (fixExit fmtExit : Int) :
    List FixAction :=
  if ¬ failures.findings.any (fun f => f.gate == GateName.lint) then []
  else
    let scopedFiles := _collect_scoped_files failures
    if scopedFiles = [] then []
    else
      let fileArgs := String.intercalate " " (scopedFiles.map shlex_quote)
      [{ rule_id := "RUFF_AUTOFIX"
         strategy := "deterministic_prefix"
         accepted := fixExit == 0 || fixExit == 1
         command := "ruff check --fix " ++ fileArgs
         exit_code := fixExit
         files := scopedFiles
         rationale := "Apply safe ruff fixes on scoped files to clear auto-fixable lint issues." },
       { rule_id := "RUFF_FORMAT"
         strategy := "deterministic_prefix"
         accepted := fmtExit == 0
         command := "ruff format " ++ fileArgs
         exit_code := fmtExit
         files := scopedFiles
         rationale := "Apply ruff formatting on scoped files." }]

/-! ### Repair loop, translated from src/pygate/repair_command.py.

The workspace is modelled as a partial map from paths (segment lists)
to opaque file contents.  Wall-clock readings, git responses, fix-command
exit codes, the mutation the fix commands perform, and the re-run gate
traces are supplied per attempt by an `AttemptEnv` oracle.  The list of
`Effect`s returned alongside the outcome records, in order, the
workspace-mutating operations the loop performed. -/

def Workspace := List String → Option String

def BACKUP_EXCLUDES : List String :=
  [".pygate", ".git", "__pycache__", ".venv", ".tox", ".nox", "dist", "node_modules"]

/-- `shutil.ignore_patterns` drops entries whose basename matches at any
directory level, so a path survives the backup copy exactly when none of
its segments is an excluded name. -/
def excludedAnywhere (p : List String) : Bool :=
  p.any (fun seg => BACKUP_EXCLUDES.contains seg)

/-- `_backup_workspace`: copy the tree, ignoring excluded names at every
level. -/
def _backup_workspace (ws : Workspace) : Workspace :=
  fun p => if excludedAnywhere p then none else ws p

/-- `_restore_workspace`: delete every non-excluded top-level entry of
the current workspace, then copy every top-level entry of the backup
back in.  Excluded top-level entries are left untouched. -/
def _restore_workspace (cur backup : Workspace) : Workspace :=
  fun p =>
    match p with
    | [] => none
    | top :: _ => if BACKUP_EXCLUDES.contains top then cur p else backup p

/-- The trace of one `git diff --numstat` invocation; `none` at the use
site models `command_exists("git")` returning false. -/
structure GitResp where
  exit_code : Int
  stdout : String
deriving DecidableEq, Repr

/-- `int(field)` for a numstat field, with the "-" binary marker mapped
to 0.  git numstat fields are decimal digits or "-", so the partial
Python `int()` is total here. -/
def parseNumstatVal (s : String) : Int :=
  if s = "-" then 0 else (((pyParseNat s).getD 0 : Nat) : Int)

/-- Python dict assignment `d[k] = v` on an insertion-ordered dict. -/
def dictSet (d : List (String × Int)) (k : String) (v : Int) : List (String × Int) :=
  if d.any (fun kv => kv.1 == k) then d.map (fun kv => if kv.1 == k then (k, v) else kv)
  else d ++ [(k, v)]

def dictGet (d : List (String × Int)) (k : String) : Int :=
  (d.lookup k).getD 0

/-- The line loop of `_diff_snapshot`: tab-split each line, keep the
three-field ones as file ↦ added+removed. -/
def diffLoop : List String → List (String × Int) → List (String × Int)
  | [], d => d
  | line :: rest, d =>
    match (splitSegs (Char.ofNat 9) line.data).map (fun l => String.mk l) with
    | [a, r, f] => diffLoop rest (dictSet d f (parseNumstatVal a + parseNumstatVal r))
    | _ => diffLoop rest d

def _diff_snapshot (git : Option GitResp) : List (String × Int) :=
  match git with
  | none => []
  | some trace =>
    if trace.exit_code ≠ 0 then []
    else diffLoop (pySplitlines (pyStrip trace.stdout)) []

/-- Sum over the union of touched files of the absolute before/after
change-magnitude difference. -/
def _compute_patch_lines (before after : List (String × Int)) : Int :=
  ((before.map Prod.fst ++ after.map Prod.fst).dedup).foldl
    (fun total f => total + |dictGet after f - dictGet before f|) 0

structure Policy where
  max_attempts : Int
  max_patch_lines : Int
  abort_on_no_improvement : Int
  time_cap_seconds : Int
deriving DecidableEq, Repr

/-- Python `int(x)` on a non-negative rational elapsed time (truncation
toward zero). -/
def pyTrunc (q : ℚ) : Int :=
  Int.tdiv q.num q.den

/-- Everything the environment decides during one repair attempt. -/
structure AttemptEnv where
  elapsed : ℚ
  gitBefore : Option GitResp := none
  gitAfter : Option GitResp := none
  fixExit : Int := 0
  fmtExit : Int := 0
  fixTransform : Workspace → Workspace := id
  runId : String := ""
  timestamp : String := ""
  repo : Option String := none
  branch : Option String := none
  exec : String → CommandTrace := fun c => ⟨c, "", "", 0, 0, false, "", ""⟩
  parse : GateName → CommandTrace → List Finding := fun _ _ => []

structure LoopState where
  ws : Workspace
  failures : FailuresPayload
  previous_count : Nat
  no_improvement : Nat
  attempts : List RepairAttempt

/-- Workspace-mutating operations of the loop, in execution order. -/
inductive Effect
  | backupCreated (attempt : Nat)
  | fixCommandsRun (attempt : Nat)
  | workspaceRestored (attempt : Nat)
  | gatesRerun (attempt : Nat)
deriving DecidableEq, Repr

inductive RepairOutcome
  | report (r : RepairReport)
  | escalated (e : Escalation)
deriving DecidableEq, Repr

inductive StepOut
  | done (r : RepairOutcome) (final : LoopState) (effects : List Effect)
  | next (s : LoopState) (effects : List Effect)

/-- One iteration of the `for attempt_num in range(1, max_attempts + 1)`
body of `execute_repair`, in source order: time-cap check, checkpoint,
pre-fix git snapshot, deterministic fixes, nothing-left-to-try check,
post-fix snapshot and patch budget check, gate re-run, pass check,
rollback-or-adopt, stagnation tracking.  When the fix engine produced no
actions no fix command ran, so the workspace is unchanged. -/
def repairStep (cwd : String) (pol : Policy) (mode : RunMode)
    (commandsConfig : List (String × String)) (testInCanary : Bool)
    (n : Nat) (env : AttemptEnv) (s : LoopState) : StepOut :=
  if (pol.time_cap_seconds : ℚ) < env.elapsed then
    .done (.escalated
      { reason_code := UNKNOWN_BLOCKER
        message := "Time cap reached (" ++ pyIntStr pol.time_cap_seconds ++ "s)."
        evidence := [("elapsed_seconds", .int (pyTrunc env.elapsed))] }) s []
  else
    let backup := _backup_workspace s.ws
    let beforeSnap := _diff_snapshot env.gitBefore
    let actions := run_deterministic_fix_actions s.failures env.fixExit env.fmtExit
    let ws1 := if actions = [] then s.ws else env.fixTransform s.ws
    let effs1 : List Effect :=
      if actions = [] then [.backupCreated n] else [.backupCreated n, .fixCommandsRun n]
    if actions = [] ∧ 1 < n then
      .done (.escalated
        { reason_code := NO_IMPROVEMENT
          message := "No applicable fix strategies for remaining " ++
            pyStr s.previous_count ++ " finding(s)."
          evidence := [("attempts", .attempts s.attempts),
                       ("latest_failures_path", .str (cwd ++ "/" ++ FAILURES_FILE)),
                       ("remaining_gates",
                        .strs (dedupFirst (s.failures.findings.map (fun f => f.gate.value))))] })
        { s with ws := ws1 } effs1
    else
      let afterSnap := _diff_snapshot env.gitAfter
      let patchLines := _compute_patch_lines beforeSnap afterSnap
      if pol.max_patch_lines < patchLines then
        .done (.escalated
          { reason_code := PATCH_BUDGET_EXCEEDED
            message := "Patch exceeded budget: " ++ pyIntStr patchLines ++ " lines > " ++
              pyIntStr pol.max_patch_lines ++ " max."
            evidence := [("attempt", .int n), ("patch_lines", .int patchLines),
                         ("max_patch_lines", .int pol.max_patch_lines)] })
          { s with ws := _restore_workspace ws1 backup } (effs1 ++ [.workspaceRestored n])
      else
        let fresh := execute_run_model mode s.failures.changed_files cwd commandsConfig
          testInCanary env.exec env.parse env.runId env.timestamp env.repo env.branch
        let currentCount := fresh.findings.length
        let attempt : RepairAttempt :=
          { attempt := n
            patch_lines := patchLines
            before_findings := s.previous_count
            after_findings := currentCount
            improved := decide (currentCount < s.previous_count)
            worsened := decide (s.previous_count < currentCount)
            status := fresh.status.value
            actions := actions }
        let attempts2 := s.attempts ++ [attempt]
        let effs2 := effs1 ++ [.gatesRerun n]
        if fresh.status = RunStatus.pass then
          .done (.report { status := "pass", attempts := attempts2 })
            { s with ws := ws1, attempts := attempts2 } effs2
        else
          let s2 : LoopState :=
            if s.previous_count < currentCount then
              { ws := _restore_workspace ws1 backup
                failures := s.failures
                previous_count := s.previous_count
                no_improvement := s.no_improvement
                attempts := attempts2 }
            else
              { ws := ws1
                failures := fresh
                previous_count := currentCount
                no_improvement := s.no_improvement
                attempts := attempts2 }
          let effs3 :=
            if s.previous_count < currentCount then effs2 ++ [.workspaceRestored n] else effs2
          let noimp := if currentCount < s.previous_count then 0 else s.no_improvement + 1
          let s3 : LoopState := { s2 with no_improvement := noimp }
          if pol.abort_on_no_improvement ≤ (noimp : Int) then
            .done (.escalated
              { reason_code := NO_IMPROVEMENT
                message := "No measurable improvement for " ++ pyStr noimp ++
                  " consecutive attempt(s)."
                evidence := [("attempts", .attempts attempts2),
                             ("latest_failures_path", .str (cwd ++ "/" ++ FAILURES_FILE))] })
              s3 effs3
          else
            .next s3 effs3

/-- The attempt numbers `range(1, max_attempts + 1)` visits. -/
def attemptNumbers (maxAttempts : Int) : List Nat :=
  (List.range maxAttempts.toNat).map (· + 1)

/-- Runs `repairStep` over the remaining attempt numbers; when they are
exhausted the loop escalates with `UNKNOWN_BLOCKER`. -/
def repairLoopGo (cwd : String) (pol : Policy) (mode : RunMode)
    (commandsConfig : List (String × String)) (testInCanary : Bool)
    (env : Nat → AttemptEnv) :
    List Nat → LoopState → List Effect → RepairOutcome × LoopState × List Effect
  | [], s, effs =>
    (.escalated
      { reason_code := UNKNOWN_BLOCKER
        message := "Attempts exhausted (" ++ pyIntStr pol.max_attempts ++ ")."
        evidence := [("latest_failures_path", .str (cwd ++ "/" ++ FAILURES_FILE))] }, s, effs)
  | num :: rest, s, effs =>
    match repairStep cwd pol mode commandsConfig testInCanary num (env num) s with
    | .done r fin es => (r, fin, effs ++ es)
    | .next s2 es => repairLoopGo cwd pol mode commandsConfig testInCanary env rest s2 (effs ++ es)

/-- `execute_repair`: resolve the policy from layered configuration (a
CLI-supplied attempt cap overriding it), read the input failures
payload, and run the bounded attempt loop. -/
def execute_repair (input_path : String) (maxAttemptsArg : Option Int) (cwd : String)
    (pygateToml pyprojectPygate : Option UserConfig)
    (readFailures : String → FailuresPayload)
    (env : Nat → AttemptEnv) (ws0 : Workspace) : RepairOutcome × LoopState × List Effect :=
  let config := load_config cwd pygateToml pyprojectPygate
  let pol : Policy :=
    { max_attempts :=
        match maxAttemptsArg with
        | some m => m
        | none => (config.policy.lookup "max_attempts").getD 3
      max_patch_lines := (config.policy.lookup "max_patch_lines").getD 150
      abort_on_no_improvement := (config.policy.lookup "abort_on_no_improvement").getD 2
      time_cap_seconds := (config.policy.lookup "time_cap_seconds").getD 1200 }
  let failures := readFailures input_path
  let s0 : LoopState :=
    { ws := ws0
      failures := failures
      previous_count := failures.findings.length
      no_improvement := 0
      attempts := [] }
  repairLoopGo cwd pol failures.mode config.commands
    ((config.gates.lookup "test_in_canary").getD false) env
    (attemptNumbers pol.max_attempts) s0 []

/-! ### CLI surface, translated from src/pygate/cli.py -/

/-- The parsed argparse namespace of the `repair` subcommand. -/
structure RepairArgs where
  input : String
  max_attempts : Option Int := none
  deterministic_only : Bool := false
deriving DecidableEq, Repr

/-- The option strings `_build_parser` registers on the `repair`
subparser. -/
def repair_cli_flags : List String :=
  ["--input", "--max-attempts", "--deterministic-only"]

def outcomeStatus : RepairOutcome → String
  | .report r => r.status
  | .escalated e => e.status

/-- The `repair` branch of `main`: forward `--input` and
`--max-attempts` to `execute_repair`, then exit 0 on a passing result
and 2 otherwise. -/
def main_repair (args : RepairArgs) (cwd : String)
    (pygateToml pyprojectPygate : Option UserConfig)
    (readFailures : String → FailuresPayload)
    (env : Nat → AttemptEnv) (ws0 : Workspace) :
    (RepairOutcome × LoopState × List Effect) × Int :=
  let result := execute_repair args.input args.max_attempts cwd pygateToml pyprojectPygate
    readFailures env ws0
  (result, if outcomeStatus result.1 = "pass" then 0 else 2)

/-! ## Shared helper lemmas -/

theorem lookup_append_or {α β : Type} [BEq α] (l1 l2 : List (α × β)) (k : α) :
    (l1 ++ l2).lookup k = (l1.lookup k).or (l2.lookup k) := by
  induction l1 with
  | nil => rfl
  | cons a t ih =>
    obtain ⟨a1, a2⟩ := a
    simp only [List.cons_append, List.lookup]
    split
    · rfl
    · exact ih

theorem runGatesLoop_findings (cwd : String) (commandsConfig : List (String × String))
    (exec : String → CommandTrace) (parse : GateName → CommandTrace → List Finding)
    (plan : List (GateName × Bool)) :
    (runGatesLoop cwd commandsConfig exec parse plan).2.1 =
      plan.flatMap (fun ge =>
        if ge.2 then
          gateContribution parse ge.1 (exec (_resolve_command ge.1 commandsConfig cwd))
        else []) := by
  induction plan with
  | nil => rfl
  | cons ge rest ih =>
    obtain ⟨g, en⟩ := ge
    cases en <;> simp [runGatesLoop, ih]

/-! ## Claim C1 -/

/-- C1: in every gate run, the overall status recorded in the
FailuresPayload is `fail` iff the aggregated findings list across all
gates is non-empty, independent of individual gate exit codes; the
aggregate is exactly the concatenation of the per-gate contributions of
the enabled gates, and an enabled gate whose command exits non-zero
always contributes at least one finding (the synthesized fallback
finding when its adapter parses none). -/
theorem run_status_iff_findings :
    ∀ (mode : RunMode) (cwd : String) (commandsConfig : List (String × String))
      (testInCanary : Bool) (exec : String → CommandTrace)
      (parse : GateName → CommandTrace → List Finding) (changedFiles : List String)
      (runId timestamp : String) (repo branch : Option String),
    let p := execute_run_model mode changedFiles cwd commandsConfig testInCanary exec parse
      runId timestamp repo branch
    (p.status = RunStatus.fail ↔ p.findings ≠ []) ∧
    p.findings = (gatePlan mode testInCanary).flatMap (fun ge =>
      if ge.2 then
        gateContribution parse ge.1 (exec (_resolve_command ge.1 commandsConfig cwd))
      else []) ∧
    (∀ (g : GateName) (trace : CommandTrace), trace.exit_code ≠ 0 →
      gateContribution parse g trace ≠ []) := by
  intro mode cwd commandsConfig testInCanary exec parse changedFiles runId timestamp repo branch
  refine ⟨?_, ?_, ?_⟩
  · by_cases h : (run_deterministic_gates mode cwd commandsConfig testInCanary exec parse).2.1 = [] <;>
      simp [execute_run_model, h]
  · exact runGatesLoop_findings cwd commandsConfig exec parse (gatePlan mode testInCanary)
  · intro g trace h
    unfold gateContribution
    rw [if_pos h]
    cases hp : parse g trace <;> simp [hp]

/-- Witness for C1: a command trace with exit code 2 and an adapter that
parses nothing still yields a non-empty contribution. -/
theorem run_status_iff_findings_witness :
    (⟨"x", "/w", "t", 0, 2, false, "", ""⟩ : CommandTrace).exit_code ≠ 0 ∧
    gateContribution (fun _ _ => []) GateName.lint ⟨"x", "/w", "t", 0, 2, false, "", ""⟩ ≠ [] :=
  ⟨by decide,
   (run_status_iff_findings RunMode.canary "/w" [] false
      (fun c => ⟨c, "/w", "t", 0, 0, false, "", ""⟩) (fun _ _ => []) [] "r" "t" none none).2.2
     GateName.lint ⟨"x", "/w", "t", 0, 2, false, "", ""⟩ (by decide)⟩

/-! ## Claim C8 -/

/-- Modelled from the claim under test (not from the source): a
three-tier policy merge in which the explicit file's values override the
embedded section's values and both fall back to the built-in defaults. -/
def spec_three_tier_policy (pygateToml pyprojectPygate : Option UserConfig) (k : String) :
    Option Int :=
  (((pygateToml.getD {}).policy.lookup k).or
    ((pyprojectPygate.getD {}).policy.lookup k)).or (DEFAULT_POLICY.lookup k)

/-- C8 counterexample: with pygate.toml present but not setting
max_patch_lines and pyproject's embedded section setting it to 99, the
claimed three-tier merge yields 99 while `load_config` yields the
built-in default 150 — the embedded value is not effective. -/
theorem config_counterexample :
    (load_config "/repo" (some { policy := [("max_attempts", 5)] })
        (some { policy := [("max_patch_lines", 99)] })).policy.lookup "max_patch_lines" =
      some 150 ∧
    spec_three_tier_policy (some { policy := [("max_attempts", 5)] })
        (some { policy := [("max_patch_lines", 99)] }) "max_patch_lines" = some 99 ∧
    ¬ ((load_config "/repo" (some { policy := [("max_attempts", 5)] })
          (some { policy := [("max_patch_lines", 99)] })).policy.lookup "max_patch_lines" =
        spec_three_tier_policy (some { policy := [("max_attempts", 5)] })
          (some { policy := [("max_patch_lines", 99)] }) "max_patch_lines") := by
  refine ⟨rfl, rfl, by decide⟩

/-- C8 amended: configuration resolution selects a single user layer —
the explicit pygate.toml when it exists (the embedded pyproject section
is then ignored entirely), else the embedded section — and merges the
selected layer over the built-in defaults, which supply every policy
option the selected layer does not set; with neither layer present the
defaults are used directly. -/
theorem config_layer_selection :
    ∀ (cwd : String) (u : UserConfig) (pp1 pp2 : Option UserConfig) (k : String),
    load_config cwd (some u) pp1 = load_config cwd (some u) pp2 ∧
    (load_config cwd (some u) pp1).policy.lookup k =
      (u.policy.lookup k).or (DEFAULT_POLICY.lookup k) ∧
    (load_config cwd none (some u)).policy.lookup k =
      (u.policy.lookup k).or (DEFAULT_POLICY.lookup k) ∧
    (load_config cwd none none).policy.lookup k = DEFAULT_POLICY.lookup k := by
  intro cwd u pp1 pp2 k
  refine ⟨rfl, ?_, ?_, rfl⟩ <;>
    simpa [load_config, _merge_config] using lookup_append_or u.policy DEFAULT_POLICY k

/-! ## Claim C10 -/

/-- C10: the repair subparser registers a deterministic-only flag, but
the repair dispatch of `main` ignores the parsed value: two invocations
differing only in that flag produce identical repair results, final
states, effects and exit codes. -/
theorem deterministic_only_flag_inert :
    "--deterministic-only" ∈ repair_cli_flags ∧
    ∀ (input : String) (m : Option Int) (d1 d2 : Bool) (cwd : String)
      (pt pp : Option UserConfig) (rf : String → FailuresPayload)
      (env : Nat → AttemptEnv) (ws0 : Workspace),
      main_repair { input := input, max_attempts := m, deterministic_only := d1 } cwd pt pp
        rf env ws0 =
      main_repair { input := input, max_attempts := m, deterministic_only := d2 } cwd pt pp
        rf env ws0 :=
  ⟨by decide, fun _ _ _ _ _ _ _ _ _ _ => rfl⟩

/-! ## Claim C7 -/

theorem collectLoop_eq (l : List String) :
    ∀ (seen files : List String),
      collectLoop l (seen, files) =
        (seen ++ dedupFrom seen (l.filter (fun p => _is_eligible p)),
         files ++ dedupFrom seen (l.filter (fun p => _is_eligible p))) := by
  induction l with
  | nil => intro seen files; simp [collectLoop, dedupFrom]
  | cons f rest ih =>
    intro seen files
    simp only [collectLoop]
    by_cases hel : _is_eligible f
    · by_cases hseen : f ∈ seen
      · rw [if_neg (by simp [hseen])]
        simp [ih, List.filter_cons, hel, dedupFrom, hseen]
      · rw [if_pos ⟨hseen, hel⟩]
        simp [ih, List.filter_cons, hel, dedupFrom, hseen]
    · rw [if_neg (by simp [hel])]
      simp [ih, List.filter_cons, hel]

theorem dedupFrom_append (Y : List String) :
    ∀ (X seen : List String),
      dedupFrom seen (X ++ Y) = dedupFrom seen X ++ dedupFrom (seen ++ dedupFrom seen X) Y := by
  intro X
  induction X with
  | nil => intro seen; simp [dedupFrom]
  | cons a X ih =>
    intro seen
    by_cases hseen : a ∈ seen
    · simp [dedupFrom, hseen, ih]
    · simp only [List.cons_append, dedupFrom, if_neg hseen, List.append_eq]
      rw [ih]
      simp

/-- Modelled from the claim under test (not from the source): scope =
changed files followed by file references inside lint findings only,
de-duplicated first-seen, keeping .py paths outside excluded
directories that are not absolute and have no parent-directory
traversal segment, truncated to 20. -/
def spec_eligible (path : String) : Bool :=
  pyEndsWith path ".py" && !excludedDirsMatch path && !pyStartsWith path "/" &&
    !((pathSegs path).contains "..")

/-- Modelled from the claim under test (not from the source): the
claimed eligible-file scope computation. -/
def spec_scoped_files (failures : FailuresPayload) : List String :=
  (dedupFirst ((failures.changed_files ++
      (failures.findings.filter (fun f => f.gate == GateName.lint)).flatMap
        (fun f => f.files)).filter (fun p => spec_eligible p))).take _MAX_FILES

/-- A payload whose only finding is a typecheck finding referencing
b.py, and whose changed list holds a name containing ".." as a
substring but no traversal segment. -/
def tcOnlyPayload : FailuresPayload :=
  { run_id := "r", mode := .canary, status := .fail, timestamp := "t",
    changed_files := ["a..b.py"], gates := [],
    findings := [{ id := "pyright_b.py_1", gate := .typecheck, severity := .high,
                   summary := "type error", files := ["b.py"],
                   actual := .int 1, threshold := .int 0 }] }

/-- C7 counterexample: the fix engine takes file references from all
findings (here a typecheck finding) and rejects any path containing
".." as a substring, so its scope differs from the claimed lint-only,
traversal-segment-based scope at this concrete payload. -/
theorem scoped_files_counterexample :
    _collect_scoped_files tcOnlyPayload = ["b.py"] ∧
    spec_scoped_files tcOnlyPayload = ["a..b.py"] ∧
    ¬ (_collect_scoped_files tcOnlyPayload = spec_scoped_files tcOnlyPayload) := by
  refine ⟨by decide, by decide, by decide⟩

/-- Thirty eligible changed files, used to exercise the 20-file cap. -/
def thirtyFilesPayload : FailuresPayload :=
  { run_id := "r", mode := .canary, status := .fail, timestamp := "t",
    changed_files := (List.range 30).map (fun i => "f" ++ pyStr i ++ ".py"),
    gates := [], findings := [] }

/-- C7 amended: the eligible-file scope equals the snapshot's
changed-file list followed by the file references inside all findings
regardless of gate, de-duplicated first-seen and order-preserving,
keeping only paths that end in ".py", have no path segment equal to an
excluded housekeeping directory name, do not start with a slash, and do
not contain ".." as a substring, truncated to the first 20 entries; on
thirty eligible offered files exactly 20 are retained. -/
theorem scoped_files_characterization :
    (∀ (failures : FailuresPayload),
      _collect_scoped_files failures =
        (dedupFirst ((failures.changed_files ++
            failures.findings.flatMap (fun f => f.files)).filter
              (fun p => _is_eligible p))).take _MAX_FILES) ∧
    (_collect_scoped_files thirtyFilesPayload).length = _MAX_FILES := by
  constructor
  · intro failures
    simp only [_collect_scoped_files, collectLoop_eq, List.nil_append]
    rw [List.filter_append, dedupFirst, dedupFrom_append, List.nil_append]
  · decide

/-! ## Repair-step claims -/

/-- The loop state carried out of a step, whether the step terminated
the loop or continued. -/
def stepState : StepOut → LoopState
  | .done _ fin _ => fin
  | .next s _ => s

theorem stepState_ite (c : Prop) [Decidable c] (a b : StepOut) :
    stepState (if c then a else b) = if c then stepState a else stepState b := by
  split <;> rfl

theorem execute_run_pass_iff (mode : RunMode) (changedFiles : List String) (cwd : String)
    (commandsConfig : List (String × String)) (testInCanary : Bool)
    (exec : String → CommandTrace) (parse : GateName → CommandTrace → List Finding)
    (runId timestamp : String) (repo branch : Option String) :
    (execute_run_model mode changedFiles cwd commandsConfig testInCanary exec parse runId
        timestamp repo branch).status = RunStatus.pass ↔
      (execute_run_model mode changedFiles cwd commandsConfig testInCanary exec parse runId
        timestamp repo branch).findings = [] := by
  by_cases h : (run_deterministic_gates mode cwd commandsConfig testInCanary exec parse).2.1 = [] <;>
    simp [execute_run_model, h]

/-! ## Claim C2 -/

/-- C2: when the computed patch-line size exceeds the policy budget on
an attempt that got past the time-cap and nothing-left-to-try checks,
the step terminates the loop with a PATCH_BUDGET_EXCEEDED escalation
whose evidence carries the attempt number, computed size and budget,
and the resulting workspace agrees with the attempt's checkpoint (and
hence with the pre-attempt workspace) on every non-excluded path. -/
theorem patch_budget_escalation :
    ∀ (cwd : String) (pol : Policy) (mode : RunMode) (commandsConfig : List (String × String))
      (testInCanary : Bool) (n : Nat) (env : AttemptEnv) (s : LoopState),
    ¬ ((pol.time_cap_seconds : ℚ) < env.elapsed) →
    ¬ (run_deterministic_fix_actions s.failures env.fixExit env.fmtExit = [] ∧ 1 < n) →
    pol.max_patch_lines <
      _compute_patch_lines (_diff_snapshot env.gitBefore) (_diff_snapshot env.gitAfter) →
    ∃ (fin : LoopState) (effs : List Effect),
      repairStep cwd pol mode commandsConfig testInCanary n env s =
        .done (.escalated
          { reason_code := PATCH_BUDGET_EXCEEDED
            message := "Patch exceeded budget: " ++
              pyIntStr (_compute_patch_lines (_diff_snapshot env.gitBefore)
                (_diff_snapshot env.gitAfter)) ++ " lines > " ++
              pyIntStr pol.max_patch_lines ++ " max."
            evidence := [("attempt", .int n),
                         ("patch_lines", .int (_compute_patch_lines
                           (_diff_snapshot env.gitBefore) (_diff_snapshot env.gitAfter))),
                         ("max_patch_lines", .int pol.max_patch_lines)] })
          fin effs ∧
      ∀ (top : String) (rest : List String), excludedAnywhere (top :: rest) = false →
        fin.ws (top :: rest) = _backup_workspace s.ws (top :: rest) ∧
        fin.ws (top :: rest) = s.ws (top :: rest) := by
  intro cwd pol mode commandsConfig testInCanary n env s h1 h2 h3
  simp only [repairStep]
  rw [if_neg h1, if_neg h2, if_pos h3]
  refine ⟨_, _, rfl, ?_⟩
  intro top rest hex
  have htop : top ∉ BACKUP_EXCLUDES := by
    intro hmem
    have hcon : excludedAnywhere (top :: rest) = true := by
      simp only [excludedAnywhere, List.any_cons, Bool.or_eq_true]
      exact Or.inl (by simpa using hmem)
    rw [hex] at hcon
    cases hcon
  constructor <;> simp [_restore_workspace, _backup_workspace, htop, hex]

/-! ## Claim C3 -/

/-- C3: on a non-passing attempt that reached re-measurement, a strictly
worsened fresh count rolls the workspace back to the checkpoint and
leaves the current FailuresPayload and its count unchanged; otherwise
the fresh snapshot wholesale replaces the current one and its count
becomes current. -/
theorem regression_rollback_or_adopt :
    ∀ (cwd : String) (pol : Policy) (mode : RunMode) (commandsConfig : List (String × String))
      (testInCanary : Bool) (n : Nat) (env : AttemptEnv) (s : LoopState)
      (fresh : FailuresPayload) (st : LoopState),
    fresh = execute_run_model mode s.failures.changed_files cwd commandsConfig testInCanary
      env.exec env.parse env.runId env.timestamp env.repo env.branch →
    st = stepState (repairStep cwd pol mode commandsConfig testInCanary n env s) →
    ¬ ((pol.time_cap_seconds : ℚ) < env.elapsed) →
    ¬ (run_deterministic_fix_actions s.failures env.fixExit env.fmtExit = [] ∧ 1 < n) →
    ¬ (pol.max_patch_lines <
        _compute_patch_lines (_diff_snapshot env.gitBefore) (_diff_snapshot env.gitAfter)) →
    fresh.findings ≠ [] →
    (s.previous_count < fresh.findings.length →
      st.failures = s.failures ∧ st.previous_count = s.previous_count ∧
      st.ws = _restore_workspace
        (if run_deterministic_fix_actions s.failures env.fixExit env.fmtExit = [] then s.ws
         else env.fixTransform s.ws) (_backup_workspace s.ws)) ∧
    (¬ s.previous_count < fresh.findings.length →
      st.failures = fresh ∧ st.previous_count = fresh.findings.length) := by
  intro cwd pol mode commandsConfig testInCanary n env s fresh st hfresh hst h1 h2 h3 h4
  have hpass : ¬ ((execute_run_model mode s.failures.changed_files cwd commandsConfig
      testInCanary env.exec env.parse env.runId env.timestamp env.repo env.branch).status =
        RunStatus.pass) := by
    rw [execute_run_pass_iff]
    rw [hfresh] at h4
    exact h4
  subst hfresh
  subst hst
  simp only [repairStep]
  rw [if_neg h1, if_neg h2, if_neg h3, if_neg hpass]
  by_cases hw : s.previous_count <
      (execute_run_model mode s.failures.changed_files cwd commandsConfig testInCanary env.exec
        env.parse env.runId env.timestamp env.repo env.branch).findings.length
  · rw [if_pos hw, if_pos hw]
    constructor
    · intro _
      rw [stepState_ite]
      simp [stepState]
    · intro hc
      exact absurd hw hc
  · rw [if_neg hw, if_neg hw]
    constructor
    · intro hc
      exact absurd hc hw
    · intro _
      rw [stepState_ite]
      simp [stepState]

/-! ## Claim C4 -/

/-- C4: on a non-passing attempt that reached re-measurement, the
consecutive-no-improvement counter is reset to zero exactly when the
fresh count strictly decreased and incremented otherwise (including on
worsened, rolled-back attempts); when the updated counter reaches the
abort threshold the step terminates the loop with a NO_IMPROVEMENT
escalation, and otherwise the loop continues. -/
theorem stagnation_counter_and_abort :
    ∀ (cwd : String) (pol : Policy) (mode : RunMode) (commandsConfig : List (String × String))
      (testInCanary : Bool) (n : Nat) (env : AttemptEnv) (s : LoopState)
      (fresh : FailuresPayload) (out : StepOut) (noimp : Nat),
    fresh = execute_run_model mode s.failures.changed_files cwd commandsConfig testInCanary
      env.exec env.parse env.runId env.timestamp env.repo env.branch →
    out = repairStep cwd pol mode commandsConfig testInCanary n env s →
    noimp = (if fresh.findings.length < s.previous_count then 0 else s.no_improvement + 1) →
    ¬ ((pol.time_cap_seconds : ℚ) < env.elapsed) →
    ¬ (run_deterministic_fix_actions s.failures env.fixExit env.fmtExit = [] ∧ 1 < n) →
    ¬ (pol.max_patch_lines <
        _compute_patch_lines (_diff_snapshot env.gitBefore) (_diff_snapshot env.gitAfter)) →
    fresh.findings ≠ [] →
    (stepState out).no_improvement = noimp ∧
    (pol.abort_on_no_improvement ≤ (noimp : Int) →
      ∃ (e : Escalation) (fin : LoopState) (effs : List Effect),
        out = .done (.escalated e) fin effs ∧ e.reason_code = NO_IMPROVEMENT) ∧
    ((noimp : Int) < pol.abort_on_no_improvement →
      ∃ (s2 : LoopState) (effs : List Effect), out = .next s2 effs) := by
  intro cwd pol mode commandsConfig testInCanary n env s fresh out noimp hfresh hout hnoimp
    h1 h2 h3 h4
  have hpass : ¬ ((execute_run_model mode s.failures.changed_files cwd commandsConfig
      testInCanary env.exec env.parse env.runId env.timestamp env.repo env.branch).status =
        RunStatus.pass) := by
    rw [execute_run_pass_iff]
    rw [hfresh] at h4
    exact h4
  subst hfresh
  subst hout
  subst hnoimp
  simp only [repairStep]
  rw [if_neg h1, if_neg h2, if_neg h3, if_neg hpass]
  refine ⟨?_, ?_, ?_⟩
  · rw [stepState_ite]
    simp only [stepState, ite_self]
  · intro habort
    rw [if_pos habort]
    exact ⟨_, _, _, rfl, rfl⟩
  · intro hcont
    rw [if_neg (not_le.mpr hcont)]
    exact ⟨_, _, rfl⟩

/-! ## Claim C9 -/

/-- The escalation reason code a step terminated the loop with, if any. -/
def escalationReason : StepOut → Option String
  | .done (.escalated e) _ _ => some e.reason_code
  | _ => none

/-- C9: without git (or with a failing git diff) every change-magnitude
snapshot is empty, the computed patch size of every attempt is 0, and
for any non-negative max_patch_lines the PATCH_BUDGET_EXCEEDED
escalation is unreachable from the repair step. -/
theorem no_git_disables_patch_budget :
    (∀ (git : Option GitResp),
        (git = none ∨ ∃ r, git = some r ∧ r.exit_code ≠ 0) → _diff_snapshot git = []) ∧
    _compute_patch_lines [] [] = 0 ∧
    (∀ (cwd : String) (pol : Policy) (mode : RunMode) (commandsConfig : List (String × String))
        (testInCanary : Bool) (n : Nat) (env : AttemptEnv) (s : LoopState),
      env.gitBefore = none → env.gitAfter = none → 0 ≤ pol.max_patch_lines →
      escalationReason (repairStep cwd pol mode commandsConfig testInCanary n env s) ≠
        some PATCH_BUDGET_EXCEEDED) := by
  refine ⟨?_, rfl, ?_⟩
  · intro git h
    rcases h with h | ⟨r, hr, hexit⟩
    · rw [h]
      rfl
    · rw [hr]
      simp [_diff_snapshot, hexit]
  · intro cwd pol mode commandsConfig testInCanary n env s hgb hga hmax
    simp only [repairStep, hgb, hga]
    have hbudget : ¬ (pol.max_patch_lines < _compute_patch_lines (_diff_snapshot none)
        (_diff_snapshot none)) := by
      intro hlt
      rw [show _compute_patch_lines (_diff_snapshot none) (_diff_snapshot none) = 0 from rfl]
        at hlt
      omega
    by_cases h1 : (pol.time_cap_seconds : ℚ) < env.elapsed
    · rw [if_pos h1]
      simp only [escalationReason]
      exact fun hc => (by decide : UNKNOWN_BLOCKER ≠ PATCH_BUDGET_EXCEEDED)
        (Option.some.inj hc)
    rw [if_neg h1]
    by_cases h2 : run_deterministic_fix_actions s.failures env.fixExit env.fmtExit = [] ∧ 1 < n
    · rw [if_pos h2]
      simp only [escalationReason]
      exact fun hc => (by decide : NO_IMPROVEMENT ≠ PATCH_BUDGET_EXCEEDED)
        (Option.some.inj hc)
    rw [if_neg h2, if_neg hbudget]
    by_cases hp : (execute_run_model mode s.failures.changed_files cwd commandsConfig
        testInCanary env.exec env.parse env.runId env.timestamp env.repo env.branch).status =
          RunStatus.pass
    · rw [if_pos hp]
      simp [escalationReason]
    rw [if_neg hp]
    by_cases ha : pol.abort_on_no_improvement ≤
        ((if (execute_run_model mode s.failures.changed_files cwd commandsConfig testInCanary
            env.exec env.parse env.runId env.timestamp env.repo
            env.branch).findings.length < s.previous_count then 0
          else s.no_improvement + 1 : Nat) : Int)
    · rw [if_pos ha]
      simp only [escalationReason]
      exact fun hc => (by decide : NO_IMPROVEMENT ≠ PATCH_BUDGET_EXCEEDED)
        (Option.some.inj hc)
    rw [if_neg ha]
    simp [escalationReason]

/-! ## Claim C5 -/

theorem repairStep_timecap (cwd : String) (pol : Policy) (mode : RunMode)
    (commandsConfig : List (String × String)) (testInCanary : Bool) (n : Nat)
    (env : AttemptEnv) (s : LoopState) (h : (pol.time_cap_seconds : ℚ) < env.elapsed) :
    repairStep cwd pol mode commandsConfig testInCanary n env s =
      .done (.escalated
        { reason_code := UNKNOWN_BLOCKER
          message := "Time cap reached (" ++ pyIntStr pol.time_cap_seconds ++ "s)."
          evidence := [("elapsed_seconds", .int (pyTrunc env.elapsed))] }) s [] := by
  simp only [repairStep]
  rw [if_pos h]

/-- C5: with a resolved time cap of 0 seconds, at least one configured
attempt, and a strictly positive first elapsed reading, the repair
invocation terminates at the very first attempt's time-cap check with
an UNKNOWN_BLOCKER escalation whose evidence carries the elapsed
seconds, the loop state is still the initial one (workspace untouched),
and no mutating effect — no checkpoint, no fix command, no restore, no
re-run — was performed. -/
theorem time_cap_zero_escalates_before_mutation :
    ∀ (input : String) (m : Option Int) (cwd : String) (pt pp : Option UserConfig)
      (rf : String → FailuresPayload) (env : Nat → AttemptEnv) (ws0 : Workspace),
    ((load_config cwd pt pp).policy.lookup "time_cap_seconds").getD 1200 = 0 →
    1 ≤ (match m with
         | some v => v
         | none => ((load_config cwd pt pp).policy.lookup "max_attempts").getD 3) →
    0 < (env 1).elapsed →
    execute_repair input m cwd pt pp rf env ws0 =
      (.escalated
        { reason_code := UNKNOWN_BLOCKER
          message := "Time cap reached (0s)."
          evidence := [("elapsed_seconds", .int (pyTrunc (env 1).elapsed))] },
       { ws := ws0
         failures := rf input
         previous_count := (rf input).findings.length
         no_improvement := 0
         attempts := [] }, []) := by
  intro input m cwd pt pp rf env ws0 htc hma hel
  simp only [execute_repair]
  have hk : (match m with
      | some v => v
      | none => ((load_config cwd pt pp).policy.lookup "max_attempts").getD 3).toNat =
      ((match m with
        | some v => v
        | none => ((load_config cwd pt pp).policy.lookup "max_attempts").getD 3).toNat - 1) + 1 := by
    omega
  rw [attemptNumbers, hk, List.range_succ_eq_map, List.map_cons]
  rw [repairLoopGo]
  rw [repairStep_timecap _ _ _ _ _ _ _ _
    (by rw [htc]; exact_mod_cast hel)]
  simp only [List.nil_append]
  rw [htc]
  refine congrArg₂ Prod.mk ?_ rfl
  refine congrArg RepairOutcome.escalated ?_
  simp only [Escalation.mk.injEq, and_true, true_and]
  decide

/-! ## Claim C6 -/

theorem pyStrDigits_zero (fuel : Nat) : pyStrDigits fuel 0 = [] := by
  cases fuel <;> rfl

theorem pyStrDigits_eq : ∀ (fuel n : Nat), 0 < n → n ≤ fuel →
    pyStrDigits fuel n = ((Nat.digits 10 n).map Nat.digitChar).reverse := by
  intro fuel
  induction fuel with
  | zero => intro n hn hf; omega
  | succ f ih =>
    intro n hn hf
    obtain ⟨m, rfl⟩ : ∃ m, n = m + 1 := ⟨n - 1, by omega⟩
    show pyStrDigits f ((m + 1) / 10) ++ [Nat.digitChar ((m + 1) % 10)] = _
    rw [Nat.digits_def' (by norm_num : (1 : ℕ) < 10) hn]
    simp only [List.map_cons, List.reverse_cons]
    by_cases hq : (m + 1) / 10 = 0
    · rw [hq, pyStrDigits_zero]
      simp
    · rw [ih _ (Nat.pos_of_ne_zero hq)
        (by
          have := Nat.div_lt_self hn (by norm_num : 1 < 10)
          omega)]

theorem digitChar_inj_lt10 : ∀ a < 10, ∀ b < 10, Nat.digitChar a = Nat.digitChar b → a = b := by
  decide

theorem digitChar_ne_underscore : ∀ d < 10, Nat.digitChar d ≠ '_' := by
  decide

theorem map_digitChar_inj : ∀ (l1 l2 : List Nat), (∀ d ∈ l1, d < 10) → (∀ d ∈ l2, d < 10) →
    l1.map Nat.digitChar = l2.map Nat.digitChar → l1 = l2 := by
  intro l1
  induction l1 with
  | nil =>
    intro l2 _ _ h
    cases l2 with
    | nil => rfl
    | cons b t => simp at h
  | cons a l1 ih =>
    intro l2 h1 h2 h
    cases l2 with
    | nil => simp at h
    | cons b l2 =>
      simp only [List.map_cons, List.cons.injEq] at h
      rw [digitChar_inj_lt10 a (h1 a (by simp)) b (h2 b (by simp)) h.1,
        ih l2 (fun d hd => h1 d (by simp [hd])) (fun d hd => h2 d (by simp [hd])) h.2]

theorem string_mk_data (s : String) : String.mk s.data = s := by
  cases s
  rfl

theorem sdata_append (a b : String) : (a ++ b).data = a.data ++ b.data := by
  cases a
  cases b
  rfl

theorem pyStr_eq_zero (n : Nat) (h : pyStr n = "0") : n = 0 := by
  by_contra hn
  rw [pyStr, if_neg hn] at h
  have hd : pyStrDigits n n = ['0'] := congrArg String.data h
  rw [pyStrDigits_eq n n (Nat.pos_of_ne_zero hn) le_rfl] at hd
  have hd2 : (Nat.digits 10 n).map Nat.digitChar = ['0'] := by
    have := congrArg List.reverse hd
    simpa using this
  cases hdig : Nat.digits 10 n with
  | nil => rw [hdig] at hd2; simp at hd2
  | cons d rest =>
    rw [hdig] at hd2
    cases rest with
    | nil =>
      simp only [List.map_cons, List.map_nil, List.cons.injEq, and_true] at hd2
      have hdlt : d < 10 := Nat.digits_lt_base (by norm_num) (by rw [hdig]; simp)
      have hd0 : d = 0 := digitChar_inj_lt10 d hdlt 0 (by norm_num) (by rw [hd2]; rfl)
      have hofd := Nat.ofDigits_digits 10 n
      rw [hdig, hd0] at hofd
      simp [Nat.ofDigits] at hofd
      exact hn hofd.symm
    | cons e rest2 => simp at hd2

theorem pyStr_inj : ∀ (m n : Nat), pyStr m = pyStr n → m = n := by
  intro m n h
  by_cases hm : m = 0
  · subst hm
    rw [pyStr, if_pos rfl] at h
    rw [pyStr_eq_zero n h.symm]
  by_cases hn : n = 0
  · subst hn
    have h2 : "0" = pyStr m := by
      rw [show pyStr 0 = "0" from rfl] at h
      exact h.symm
    rw [pyStr_eq_zero m h2.symm]
  rw [pyStr, if_neg hm, pyStr, if_neg hn] at h
  have hd : pyStrDigits m m = pyStrDigits n n := congrArg String.data h
  rw [pyStrDigits_eq m m (Nat.pos_of_ne_zero hm) le_rfl,
    pyStrDigits_eq n n (Nat.pos_of_ne_zero hn) le_rfl] at hd
  have hmap := List.reverse_injective hd
  have hdig := map_digitChar_inj _ _
    (fun d hd => Nat.digits_lt_base (by norm_num) hd)
    (fun d hd => Nat.digits_lt_base (by norm_num) hd) hmap
  exact Nat.digits_inj_iff.mp hdig

theorem pyStrDigits_no_underscore : ∀ (fuel n : Nat), ∀ c ∈ pyStrDigits fuel n, c ≠ '_' := by
  intro fuel
  induction fuel with
  | zero => intro n c hc; simp [pyStrDigits] at hc
  | succ f ih =>
    intro n c hc
    cases n with
    | zero => simp [pyStrDigits] at hc
    | succ m =>
      simp only [pyStrDigits, List.mem_append, List.mem_singleton] at hc
      rcases hc with hc | hc
      · exact ih _ c hc
      · rw [hc]
        exact digitChar_ne_underscore _ (Nat.mod_lt _ (by norm_num))

theorem pyStr_no_underscore (n : Nat) : ∀ c ∈ (pyStr n).data, c ≠ '_' := by
  rw [pyStr]
  split
  · intro c hc
    have : c = '0' := by simpa using hc
    rw [this]
    decide
  · intro c hc
    exact pyStrDigits_no_underscore n n c hc

theorem takeWhile_all_append (p : Char → Bool) : ∀ (xs : List Char) (y : Char) (ys : List Char),
    (∀ x ∈ xs, p x = true) → p y = false → (xs ++ y :: ys).takeWhile p = xs := by
  intro xs
  induction xs with
  | nil =>
    intro y ys _ hy
    simp [List.takeWhile_cons, hy]
  | cons x xs ih =>
    intro y ys hall hy
    simp [List.takeWhile_cons, hall x (by simp),
      ih y ys (fun a ha => hall a (by simp [ha])) hy]

theorem underscore_suffix_inj (l1 l2 d1 d2 : List Char)
    (h1 : ∀ c ∈ d1, c ≠ '_') (h2 : ∀ c ∈ d2, c ≠ '_')
    (h : l1 ++ '_' :: d1 = l2 ++ '_' :: d2) : d1 = d2 := by
  have hr := congrArg List.reverse h
  simp only [List.reverse_append, List.reverse_cons, List.append_assoc,
    List.singleton_append] at hr
  have t1 := takeWhile_all_append (fun c => decide (c ≠ '_')) d1.reverse '_' l1.reverse
    (fun x hx => by simpa using h1 x (List.mem_reverse.mp hx)) (by decide)
  have t2 := takeWhile_all_append (fun c => decide (c ≠ '_')) d2.reverse '_' l2.reverse
    (fun x hx => by simpa using h2 x (List.mem_reverse.mp hx)) (by decide)
  have : d1.reverse = d2.reverse := by
    rw [← t1, ← t2, hr]
  exact List.reverse_injective this

theorem append_underscore_pyStr_inj (A B : String) (i j : Nat)
    (h : A ++ "_" ++ pyStr i = B ++ "_" ++ pyStr j) : i = j := by
  have hd := congrArg String.data h
  simp only [sdata_append] at hd
  have husd : ("_" : String).data = ['_'] := rfl
  simp only [husd, List.append_assoc, List.singleton_append] at hd
  have hD := underscore_suffix_inj A.data B.data (pyStr i).data (pyStr j).data
    (pyStr_no_underscore i) (pyStr_no_underscore j) hd
  apply pyStr_inj
  rw [← string_mk_data (pyStr i), ← string_mk_data (pyStr j), hD]

theorem ruffFinding_id_inj (cwd : String) (ec : Int) (vi vj : RuffViolation) (i j : Nat)
    (hij : i ≠ j) : (ruffFinding cwd ec vi i).id ≠ (ruffFinding cwd ec vj j).id := by
  intro h
  simp only [ruffFinding] at h
  exact hij (append_underscore_pyStr_inj _ _ i j h)

theorem parseRuffLoop_eq (cwd : String) (ec : Int) :
    ∀ (vs : List RuffViolation) (acc : List Finding),
      parseRuffLoop cwd ec vs acc =
        acc ++ (vs.enumFrom acc.length).map (fun p => ruffFinding cwd ec p.2 p.1) := by
  intro vs
  induction vs with
  | nil => intro acc; simp [parseRuffLoop, List.enumFrom]
  | cons v rest ih =>
    intro acc
    simp only [parseRuffLoop]
    rw [ih]
    simp [List.enumFrom]

/-- C6 amended: the lint adapter's finding ids have the form
gate_rule_relpath_row_ordinal where the ordinal is the violation's
global zero-based position in the parsed checker output (so the id of an
unchanged violation is deterministic for identical output but shifts
when unrelated diagnostics earlier in the output appear or disappear),
and ids are pairwise distinct within one parse — in particular
same-location duplicates get distinct ids. -/
theorem ruff_finding_identity :
    ∀ (cwd : String) (ec : Int) (vs : List RuffViolation),
      parse_ruff_output (some vs) ec cwd =
        (vs.enumFrom 0).map (fun p => ruffFinding cwd ec p.2 p.1) ∧
      ∀ (i j : Nat) (hi : i < (parse_ruff_output (some vs) ec cwd).length)
        (hj : j < (parse_ruff_output (some vs) ec cwd).length),
        i ≠ j →
        ((parse_ruff_output (some vs) ec cwd).get ⟨i, hi⟩).id ≠
          ((parse_ruff_output (some vs) ec cwd).get ⟨j, hj⟩).id := by
  intro cwd ec vs
  have hmap : parse_ruff_output (some vs) ec cwd =
      (vs.enumFrom 0).map (fun p => ruffFinding cwd ec p.2 p.1) := by
    rw [show parse_ruff_output (some vs) ec cwd = parseRuffLoop cwd ec vs [] from rfl,
      parseRuffLoop_eq]
    simp
  refine ⟨hmap, ?_⟩
  intro i j hi hj hij
  simp only [List.get_eq_getElem, hmap, List.getElem_map, List.getElem_enumFrom]
  exact ruffFinding_id_inj cwd ec _ _ _ _ (by omega)

/-- Fixture: an unused-import violation in a.py. -/
def vA : RuffViolation :=
  { code := "F401", filename := "a.py", row := 1, column := 1, message := "unused import" }

/-- Fixture: an unrelated long-line violation in b.py. -/
def vB : RuffViolation :=
  { code := "E501", filename := "b.py", row := 9, column := 80, message := "line too long" }

/-- C6 counterexample: the same unchanged violation receives id suffix 0
when parsed alone but suffix 1 when an unrelated diagnostic precedes it
in the output, so its id depends on unrelated diagnostics elsewhere. -/
theorem ruff_id_counterexample :
    ((parse_ruff_output (some [vA]) 1 "/p").get ⟨0, by decide⟩).id = "ruff_F401_a.py_1_0" ∧
    ((parse_ruff_output (some [vB, vA]) 1 "/p").get ⟨1, by decide⟩).id = "ruff_F401_a.py_1_1" ∧
    ((parse_ruff_output (some [vB, vA]) 1 "/p").get ⟨1, by decide⟩).id ≠
      ((parse_ruff_output (some [vA]) 1 "/p").get ⟨0, by decide⟩).id := by
  refine ⟨by decide, by decide, by decide⟩

/-! ## Witness fixtures -/

def wsEmpty : Workspace := fun _ => none

/-- A passing snapshot with no findings and no changed files. -/
def emptyFailures : FailuresPayload :=
  { run_id := "r0", mode := .canary, status := .pass, timestamp := "t0",
    gates := [], findings := [] }

def sInit : LoopState :=
  { ws := wsEmpty, failures := emptyFailures, previous_count := 0, no_improvement := 0,
    attempts := [] }

def polDefault : Policy :=
  { max_attempts := 3, max_patch_lines := 150, abort_on_no_improvement := 2,
    time_cap_seconds := 1200 }

def polSmallPatch : Policy :=
  { max_attempts := 3, max_patch_lines := 1, abort_on_no_improvement := 2,
    time_cap_seconds := 1200 }

/-- An attempt whose post-fix git numstat reports a 200-line change. -/
def envPatch : AttemptEnv :=
  { elapsed := 0, gitBefore := some ⟨0, ""⟩, gitAfter := some ⟨0, "200\t0\tf.py"⟩ }

/-- An attempt without git whose re-run gate commands all exit 1 with
unparseable output, yielding two fallback findings. -/
def envFail : AttemptEnv :=
  { elapsed := 0, exec := fun c => ⟨c, "/w", "t", 0, 1, false, "", ""⟩ }

def envTime : Nat → AttemptEnv := fun _ => { elapsed := 1 }

def ptTime : Option UserConfig := some { policy := [("time_cap_seconds", 0)] }

/-! ## Witnesses -/

/-- Witness for C2 at a 1-line budget against a 200-line reported change. -/
theorem patch_budget_escalation_witness :
    (¬ ((polSmallPatch.time_cap_seconds : ℚ) < envPatch.elapsed)) ∧
    (¬ (run_deterministic_fix_actions sInit.failures envPatch.fixExit envPatch.fmtExit = [] ∧
        1 < 1)) ∧
    polSmallPatch.max_patch_lines <
      _compute_patch_lines (_diff_snapshot envPatch.gitBefore)
        (_diff_snapshot envPatch.gitAfter) ∧
    (∃ (fin : LoopState) (effs : List Effect),
      repairStep "/w" polSmallPatch RunMode.canary [] false 1 envPatch sInit =
        .done (.escalated
          { reason_code := PATCH_BUDGET_EXCEEDED
            message := "Patch exceeded budget: " ++
              pyIntStr (_compute_patch_lines (_diff_snapshot envPatch.gitBefore)
                (_diff_snapshot envPatch.gitAfter)) ++ " lines > " ++
              pyIntStr polSmallPatch.max_patch_lines ++ " max."
            evidence := [("attempt", .int 1),
                         ("patch_lines", .int (_compute_patch_lines
                           (_diff_snapshot envPatch.gitBefore)
                           (_diff_snapshot envPatch.gitAfter))),
                         ("max_patch_lines", .int polSmallPatch.max_patch_lines)] })
          fin effs ∧
      ∀ (top : String) (rest : List String), excludedAnywhere (top :: rest) = false →
        fin.ws (top :: rest) = _backup_workspace sInit.ws (top :: rest) ∧
        fin.ws (top :: rest) = sInit.ws (top :: rest)) :=
  ⟨by decide, by decide, by decide,
   patch_budget_escalation "/w" polSmallPatch RunMode.canary [] false 1 envPatch sInit
     (by decide) (by decide) (by decide)⟩

/-- Witness for C3: a worsened attempt (0 findings before, 2 after)
leaves the prior snapshot and count authoritative. -/
theorem regression_rollback_or_adopt_witness :
    (execute_run_model RunMode.canary sInit.failures.changed_files "/w" [] false envFail.exec
        envFail.parse envFail.runId envFail.timestamp envFail.repo envFail.branch).findings
      ≠ [] ∧
    sInit.previous_count <
      (execute_run_model RunMode.canary sInit.failures.changed_files "/w" [] false envFail.exec
        envFail.parse envFail.runId envFail.timestamp envFail.repo
        envFail.branch).findings.length ∧
    (stepState (repairStep "/w" polDefault RunMode.canary [] false 1 envFail sInit)).failures =
      sInit.failures ∧
    (stepState (repairStep "/w" polDefault RunMode.canary [] false 1 envFail
        sInit)).previous_count = sInit.previous_count := by
  have h := regression_rollback_or_adopt "/w" polDefault RunMode.canary [] false 1 envFail sInit
    _ _ rfl rfl (by decide) (by decide) (by decide) (by decide)
  exact ⟨by decide, by decide, (h.1 (by decide)).1, (h.1 (by decide)).2.1⟩

/-- Witness for C4: a non-improving attempt increments the counter to 1,
below the threshold 2, and the loop continues. -/
theorem stagnation_counter_and_abort_witness :
    (stepState (repairStep "/w" polDefault RunMode.canary [] false 1 envFail
        sInit)).no_improvement = 1 ∧
    ∃ (s2 : LoopState) (effs : List Effect),
      repairStep "/w" polDefault RunMode.canary [] false 1 envFail sInit = .next s2 effs := by
  have h := stagnation_counter_and_abort "/w" polDefault RunMode.canary [] false 1 envFail sInit
    _ _ 1 rfl rfl (by decide) (by decide) (by decide) (by decide) (by decide)
  exact ⟨h.1, h.2.2 (by decide)⟩

/-- Witness for C5 at time cap 0, one attempt, first clock reading 1s. -/
theorem time_cap_zero_witness :
    ((load_config "/w" ptTime none).policy.lookup "time_cap_seconds").getD 1200 = 0 ∧
    1 ≤ (match (some 1 : Option Int) with
         | some v => v
         | none => ((load_config "/w" ptTime none).policy.lookup "max_attempts").getD 3) ∧
    0 < (envTime 1).elapsed ∧
    execute_repair "failures.json" (some 1) "/w" ptTime none (fun _ => emptyFailures) envTime
        wsEmpty =
      (.escalated
        { reason_code := UNKNOWN_BLOCKER
          message := "Time cap reached (0s)."
          evidence := [("elapsed_seconds", .int (pyTrunc (envTime 1).elapsed))] },
       { ws := wsEmpty
         failures := emptyFailures
         previous_count := emptyFailures.findings.length
         no_improvement := 0
         attempts := [] }, []) :=
  ⟨by decide, by decide, by decide,
   time_cap_zero_escalates_before_mutation "failures.json" (some 1) "/w" ptTime none
     (fun _ => emptyFailures) envTime wsEmpty (by decide) (by decide) (by decide)⟩

/-- Witness for C6: two identical same-location violations receive
distinct ids. -/
theorem ruff_finding_identity_witness :
    (0 : Nat) ≠ 1 ∧
    ((parse_ruff_output (some [vA, vA]) 1 "/p").get ⟨0, by decide⟩).id ≠
      ((parse_ruff_output (some [vA, vA]) 1 "/p").get ⟨1, by decide⟩).id :=
  ⟨by decide,
   (ruff_finding_identity "/p" 1 [vA, vA]).2 0 1 (by decide) (by decide) (by decide)⟩

/-- Witness for C9: with a failing git diff the snapshot is empty, and a
git-less attempt cannot produce a patch-budget escalation. -/
theorem no_git_witness :
    _diff_snapshot (some ⟨2, "garbage"⟩) = [] ∧
    envFail.gitBefore = none ∧ envFail.gitAfter = none ∧
    (0 : Int) ≤ polDefault.max_patch_lines ∧
    escalationReason (repairStep "/w" polDefault RunMode.canary [] false 1 envFail sInit) ≠
      some PATCH_BUDGET_EXCEEDED :=
  ⟨no_git_disables_patch_budget.1 (some ⟨2, "garbage"⟩) (Or.inr ⟨⟨2, "garbage"⟩, rfl, by decide⟩),
   rfl, rfl, by decide,
   no_git_disables_patch_budget.2.2 "/w" polDefault RunMode.canary [] false 1 envFail sInit
     rfl rfl (by decide)⟩

end Pygate
